import Mathlib

/-!
Shallow embedding of the Appraisal-AutoPull backend (src/app.py) in Lean 4,
together with theorems settling the frozen claims about its specification.

Python dictionaries whose only possible keys are "pva" and "zoning" are
modelled by the structure `Entry` with `Option String` fields: `none` models
an absent key and `some ""` models a key explicitly bound to the empty
string, preserving the distinction the resolver cares about.  Python
`Optional[str]` values are `Option String`; Python truthiness of such a
value (`if s:`) is the predicate `truthy`.  The SQLite `emails` table is a
`List EmailRecord` and each helper threads the table state explicitly.
Reading the process environment is modelled by passing the relevant
variables (`Option String`, `none` = unset) as arguments.

The Python string methods used by the code (`strip`, `split`, `lower`,
`join`) are modelled by structurally recursive functions on `List Char`, so
that every definition evaluates inside the kernel.
-/

/-- Python truthiness of an `Optional[str]` value: `None` and `""` are falsy. -/
def truthy : Option String → Bool
  | none => false
  | some s => s != ""

/-- Accumulator version of Python `str.split()` on a character list: words
are maximal whitespace-free runs; no empty words are produced. -/
def splitWsAux : List Char → List Char → List (List Char)
  | [], cur => if cur.isEmpty then [] else [cur.reverse]
  | c :: rest, cur =>
    if c.isWhitespace then
      if cur.isEmpty then splitWsAux rest [] else cur.reverse :: splitWsAux rest []
    else splitWsAux rest (c :: cur)

/-- Python `s.split()` with no separator: split on whitespace runs,
discarding empty pieces. -/
def pySplitWs (s : String) : List String :=
  (splitWsAux s.data []).map String.mk

/-- Python `s.strip()` on a character list: drop whitespace from both ends. -/
def stripChars (l : List Char) : List Char :=
  ((l.dropWhile Char.isWhitespace).reverse.dropWhile Char.isWhitespace).reverse

/-- Python `s.strip()`. -/
def pyStrip (s : String) : String := ⟨stripChars s.data⟩

/-- Python `s.lower()` (ASCII case folding, all the code needs). -/
def pyLower (s : String) : String := ⟨s.data.map Char.toLower⟩

/-- Python `sep.join(parts)`. -/
def pyJoin (sep : String) (parts : List String) : String :=
  ⟨List.intercalate sep.data (parts.map String.data)⟩

/-- Python `s.split(sep)` for a one-character separator, on a character
list: every occurrence separates, and empty pieces are kept
(`"a,,b".split(",") == ["a", "", "b"]`, `"".split(",") == [""]`). -/
def splitOnChar (sep : Char) : List Char → List (List Char)
  | [] => [[]]
  | c :: rest =>
    let r := splitOnChar sep rest
    if c == sep then [] :: r
    else
      match r with
      | h :: t => (c :: h) :: t
      | [] => [[c]]

/-- Python `s.split(sep)` for a one-character separator. -/
def pySplitOn (s : String) (sep : Char) : List String :=
  (splitOnChar sep s.data).map String.mk

/-- `normalize_key` from src/app.py: falsy input gives `None`, otherwise
`" ".join(s.strip().split()).lower()`.  Note a whitespace-only string is
truthy in Python, so it normalizes to `some ""` rather than to `none`. -/
def normalize_key : Option String → Option String
  | none => none
  | some s =>
    if s == "" then none
    else some (pyLower (pyJoin " " (pySplitWs (pyStrip s))))

/-- A jurisdiction table entry: a Python dict with optional keys `pva` and
`zoning`.  `none` = key absent, `some ""` = key present with empty string. -/
structure Entry where
  pva : Option String := none
  zoning : Option String := none
deriving DecidableEq, Repr

/-- Python `{**base, **override}` for `Entry` dicts: keys of `override`
shadow `base`; keys absent from `override` come from `base`. -/
def pyMerge (base override : Entry) : Entry :=
  { pva := match override.pva with
      | some v => some v
      | none => base.pva
    zoning := match override.zoning with
      | some v => some v
      | none => base.zoning }

/-- `CITY_EMAIL_MAP` from src/app.py (static contents; the optional CSV
overlay is startup I/O outside the resolver). -/
def CITY_EMAIL_MAP : List (String × Entry) :=
  [ ("Springfield", { pva := some "pva@springfield.gov", zoning := some "zoning@springfield.gov" }),
    ("Metropolis", { pva := some "pva@metropolis.gov", zoning := some "zoning@metropolis.gov" }) ]

/-- `GRANT_CITY_ZONING_MAP` from src/app.py. -/
def GRANT_CITY_ZONING_MAP : List (String × String) :=
  [ ("corinth", ""),
    ("crittenden", "dmartin@cityofcrittendenky.gov"),
    ("dry ridge", ""),
    ("williamstown", "cityofwtown@wtownky.org") ]

/-- `COUNTY_EMAIL_MAP` from src/app.py (hard-locked county mapping). -/
def COUNTY_EMAIL_MAP : List (String × Entry) :=
  [ ("anderson", { pva := some "BStivers41@gmail.com", zoning := some "rachelle.lile@roadrunner.com" }),
    ("boone", { pva := some "pva@boonecountyky.org", zoning := some "plancom@boonecountyky.org" }),
    ("carroll", { pva := some "bethany.petry@ky.gov", zoning := some "brianmumphrey@carrolltonky.net" }),
    ("franklin", { pva := some "Angie.obanion@ky.gov", zoning := some "autumn.goderwis@franklincounty.ky.gov" }),
    ("gallatin", { pva := some "Sheryl.jones@ky.gov", zoning := some "jhansen@gallatinky.org" }),
    ("grant", { pva := some "Elliott.Anderson@ky.gov" }),
    ("kenton", { pva := some "info.kentonpva@kentoncounty.org", zoning := some "webmaster01@pdskc.org" }),
    ("owen", { pva := some "blake.robertson@ky.gov", zoning := some "" }),
    ("scott", { pva := some "Tony.McDonald@ky.gov", zoning := some "rshirley@gscplanning.com" }),
    ("trimble", { pva := some "JillM.Mahoney@ky.gov", zoning := some "" }) ]

/-- `DEFAULT_EMAILS` from src/app.py: `os.environ.get` with string defaults,
so both keys are always present.  `envP`/`envZ` model `DEFAULT_PVA_EMAIL`
and `DEFAULT_ZONING_EMAIL` (`none` = unset). -/
def DEFAULT_EMAILS (envP envZ : Option String) : Entry :=
  { pva := some (envP.getD "pva@example.com"),
    zoning := some (envZ.getD "zoning@example.com") }

/-- `extract_city_from_address` from src/app.py: falsy address gives `None`;
otherwise split on commas, strip pieces, drop empties, and return
`parts[-2]` when at least two pieces remain. -/
def extract_city_from_address : Option String → Option String
  | none => none
  | some address =>
    if address == "" then none
    else
      let parts := ((pySplitOn address ',').map pyStrip).filter (fun p => p != "")
      if h : 2 ≤ parts.length then some (parts.get ⟨parts.length - 2, by omega⟩)
      else none

/-- Modelled from the spec (section 4.2 Address Parser), for comparison with
the code: split on commas, trim and discard empty components, and if at
least two non-empty components remain return the second-to-last one,
otherwise absent. -/
def extractCitySpec (address : String) : Option String :=
  let comps := ((pySplitOn address ',').map pyStrip).filter (fun p => p != "")
  if h : 2 ≤ comps.length then some (comps.get ⟨comps.length - 2, by omega⟩)
  else none

/-- Body of `get_emails_for_location` from src/app.py after the two
normalization lines; `city_n`/`county_n` are the normalized inputs.
Branch 1: Grant county with per-city zoning override; branch 2: first county
whose normalized key equals `county_n`; branch 3: likewise for cities;
branch 4: the defaults. -/
def get_emails_core (envP envZ city_n county_n : Option String) : Entry :=
  if county_n == some "grant" then
    let emails := (COUNTY_EMAIL_MAP.lookup "grant").getD {}
    let emails :=
      if truthy city_n then
        match city_n with
        | some c =>
          match GRANT_CITY_ZONING_MAP.lookup c with
          | some z => if z != "" then { emails with zoning := some z } else emails
          | none => emails
        | none => emails
      else emails
    pyMerge (DEFAULT_EMAILS envP envZ) emails
  else
    let countyHit :=
      if truthy county_n then
        COUNTY_EMAIL_MAP.find? (fun kv => normalize_key (some kv.1) == county_n)
      else none
    match countyHit with
    | some kv => pyMerge (DEFAULT_EMAILS envP envZ) kv.2
    | none =>
      let cityHit :=
        if truthy city_n then
          CITY_EMAIL_MAP.find? (fun kv => normalize_key (some kv.1) == city_n)
        else none
      match cityHit with
      | some kv => pyMerge (DEFAULT_EMAILS envP envZ) kv.2
      | none => DEFAULT_EMAILS envP envZ

/-- `get_emails_for_location` from src/app.py. -/
def get_emails_for_location (envP envZ city county : Option String) : Entry :=
  get_emails_core envP envZ (normalize_key city) (normalize_key county)

/-- The Grant county base entry of `COUNTY_EMAIL_MAP` (no `zoning` key). -/
def grantBase : Entry := { pva := some "Elliott.Anderson@ky.gov" }

/-- Modelled from the spec (section 4.1 rule 1): the per-city Grant zoning
override, treating an absent city, an empty normalized city, a missing
override row, and an empty-string override row all as no override. -/
def grant_city_override : Option String → Option String
  | none => none
  | some c =>
    if c = "" then none
    else
      match GRANT_CITY_ZONING_MAP.lookup c with
      | some z => if z = "" then none else some z
      | none => none

/-- Apply the Grant per-city override to an entry: replace `zoning` when the
override yields a value, keep the entry otherwise. -/
def applyGrantOverride (city_n : Option String) (e : Entry) : Entry :=
  match grant_city_override city_n with
  | some z => { e with zoning := some z }
  | none => e

/-- A row of the SQLite `emails` table created by `EMAILS_TABLE_SCHEMA` in
src/app.py.  `confirmed`/`opt_in` are the 0/1 integer columns as booleans;
nullable text columns are `Option String`. -/
structure EmailRecord where
  id : Nat
  name : Option String := none
  email : String
  token : Option String := none
  confirmed : Bool := false
  opt_in : Bool := true
  created_at : Option String := none
  confirmed_at : Option String := none
deriving DecidableEq, Repr

/-- The id SQLite AUTOINCREMENT would assign to the next inserted row. -/
def nextId (db : List EmailRecord) : Nat :=
  (db.foldl (fun m r => max m r.id) 0) + 1

/-- `add_pending_email` from src/app.py: look the email up; an already
confirmed row makes it return `False` with no write; an unconfirmed row gets
its token, name, opt_in and created_at updated; otherwise a fresh pending
row is inserted.  `now` stands for `datetime.utcnow().isoformat()`. -/
def add_pending_email (email : String) (name : Option String) (token : String)
    (opt_in : Bool) (now : String) (db : List EmailRecord) : Bool × List EmailRecord :=
  match db.find? (fun r => r.email == email) with
  | some row =>
    if row.confirmed then (false, db)
    else
      (true, db.map (fun r =>
        if r.email == email then
          { r with token := some token, name := name, opt_in := opt_in, created_at := some now }
        else r))
  | none =>
    (true, db ++ [{ id := nextId db, name := name, email := email, token := some token,
                    confirmed := false, opt_in := opt_in, created_at := some now }])

/-- The dict returned by `confirm_email` in src/app.py
(`{"id", "name", "email", "confirmed"}`). -/
structure ConfirmRow where
  id : Nat
  name : Option String
  email : String
  confirmed : Bool
deriving DecidableEq, Repr

/-- `confirm_email` from src/app.py: select the first row holding the token
(`LIMIT 1`); no row gives `None`; an already confirmed row is returned as-is
with no write; a pending row is updated to confirmed with `confirmed_at`
stamped and then returned.  The SQL `token = ?` comparison never matches a
NULL token, which `r.token == some token` reflects. -/
def confirm_email (token : String) (now : String) (db : List EmailRecord) :
    Option ConfirmRow × List EmailRecord :=
  match db.find? (fun r => r.token == some token) with
  | none => (none, db)
  | some row =>
    if row.confirmed then
      (some { id := row.id, name := row.name, email := row.email, confirmed := true }, db)
    else
      (some { id := row.id, name := row.name, email := row.email, confirmed := true },
       db.map (fun r =>
         if r.id == row.id then { r with confirmed := true, confirmed_at := some now } else r))

/-- The environment variables read by the mail and verification code in
src/app.py; `none` models an unset variable. -/
structure SmtpEnv where
  SMTP_HOST : Option String := none
  SMTP_PORT : Option String := none
  SMTP_USER : Option String := none
  SMTP_PASS : Option String := none
  SENDER_EMAIL : Option String := none
  SENDER_NAME : Option String := none
  APP_BASE_URL : Option String := none
deriving DecidableEq, Repr

/-- No two consecutive underscores (part of the digit-grouping rule of
Python `int`). -/
def noDoubleUnderscore : List Char → Bool
  | [] => true
  | [_] => true
  | a :: b :: rest => !(a == '_' && b == '_') && noDoubleUnderscore (b :: rest)

/-- Valid digit part for Python `int`: nonempty, only digits and single
underscores strictly between digits. -/
def pyIntDigitsValid (ds : List Char) : Bool :=
  match ds with
  | [] => false
  | c :: _ =>
    c.isDigit && (match ds.getLast? with | some d => d.isDigit | none => false) &&
    ds.all (fun x => x.isDigit || x == '_') && noDoubleUnderscore ds

/-- Numeric value of a digit list with underscores removed. -/
def digitsVal (ds : List Char) : Nat :=
  (ds.filter (fun c => c != '_')).foldl (fun n c => n * 10 + (c.toNat - 48)) 0

/-- Python `int(s)` for base-10 string arguments: strip whitespace, optional
sign, digits with optional single underscores between them; anything else
raises `ValueError`, modelled as `none`. -/
def pyIntOfString (s : String) : Option Int :=
  let cs := (pyStrip s).data
  match cs with
  | '+' :: rest => if pyIntDigitsValid rest then some (digitsVal rest) else none
  | '-' :: rest => if pyIntDigitsValid rest then some (-(digitsVal rest : Int)) else none
  | _ => if pyIntDigitsValid cs then some (digitsVal cs) else none

/-- Outcome of `send_email_via_smtp` from src/app.py.  `simulated` is the
early return taken when SMTP is not fully configured (no network touched);
`networkSend` describes the outbound SMTP attempt of the configured branch,
whose result depends on the external server; `raised` models a Python
exception escaping the function (the `int(os.environ.get("SMTP_PORT",
"465"))` call runs before any configuration check and raises `ValueError`
on a non-integer value). -/
inductive SendOutcome where
  | simulated (status_code : Nat) (body : String) (headers : List (String × String))
  | networkSend (useSSL : Bool) (host : String) (port : Int)
      (user pw fromHeader to_email : String) (reply_to : Option String)
      (subject body_text : String) (html_body : Option String)
  | raised (msg : String)
deriving DecidableEq, Repr

/-- `send_email_via_smtp` from src/app.py. -/
def send_email_via_smtp (env : SmtpEnv) (to_email subject body_text : String)
    (reply_to : Option String := none) (html_body : Option String := none) : SendOutcome :=
  let smtp_host := env.SMTP_HOST
  match pyIntOfString (env.SMTP_PORT.getD "465") with
  | none => .raised ("invalid literal for int() with base 10: \x27" ++ env.SMTP_PORT.getD "465" ++ "\x27")
  | some smtp_port =>
    let smtp_user := env.SMTP_USER
    let smtp_pass := env.SMTP_PASS
    let from_addr := env.SENDER_EMAIL
    let from_name := env.SENDER_NAME
    if !truthy smtp_host || !truthy smtp_user || !truthy smtp_pass || !truthy from_addr then
      let headers :=
        match reply_to with
        | some r => if r != "" then [("Reply-To", r)] else []
        | none => []
      .simulated 250 ("Simulated send to " ++ to_email) headers
    else
      let fromHeader :=
        if truthy from_name then from_name.getD "" ++ " <" ++ from_addr.getD "" ++ ">"
        else from_addr.getD ""
      .networkSend (smtp_port == 465) (smtp_host.getD "") smtp_port (smtp_user.getD "")
        (smtp_pass.getD "") fromHeader to_email reply_to subject body_text html_body

/-- Python `s.rstrip("/")`. -/
def rstripSlash (s : String) : String :=
  ⟨(s.data.reverse.dropWhile (fun c => c == '/')).reverse⟩

/-- `build_verification_email` from src/app.py: subject, plain body and html
body of the verification message (despite the `(str, str)` annotation the
source returns this triple). -/
def build_verification_email (appBase senderName : Option String)
    (user_email token : String) : String × String × String :=
  let app_base := rstripSlash (appBase.getD "http://localhost:5000")
  let confirm_url := app_base ++ "/confirm_email?token=" ++ token
  let subject := "Confirm your email for Appraisal AutoPull"
  let plain :=
    "Hi,\n\n" ++
    "Thanks for saving your contact info with Whenever Home. Click the link below to confirm your email address:\n\n" ++
    confirm_url ++ "\n\n" ++
    "If the link doesn\x27t work, copy and paste it into your browser.\n\n" ++
    "Sent by " ++ senderName.getD "Whenever Home" ++ " on behalf of " ++ user_email ++ "\n"
  let html :=
    "\n    <html>\n      <body>\n        <p>Hi,</p>\n        <p>Thanks for saving your contact info with Whenever Home. Click the button below to confirm your email address:</p>\n        <p><a href=\"" ++ confirm_url ++
    "\" style=\"display:inline-block;padding:12px 20px;background:#1a73e8;color:#fff;border-radius:6px;text-decoration:none;\">Yes — confirm my email</a></p>\n        <p>If the button doesn\x27t work, use this link:<br/><a href=\"" ++ confirm_url ++ "\">" ++ confirm_url ++
    "</a></p>\n        <hr/>\n        <small>Sent by " ++ senderName.getD "Whenever Home" ++ " on behalf of " ++ user_email ++ ". Reply-To is set to " ++ user_email ++ ".</small>\n      </body>\n    </html>\n    "
  (subject, plain, html)

/-- Whether the characters avoid `@` and whitespace (the `[^@\s]` class of
`EMAIL_RE`). -/
def noWsNoAt (cs : List Char) : Bool :=
  cs.all (fun c => !c.isWhitespace && c != '@')

/-- `EMAIL_RE.match(s)` from src/app.py for the pattern
`^[^@\s]+@[^@\s]+\.[^@\s]+$`: exactly one `@`; nonempty local part and
domain without whitespace; the domain contains a dot that is neither its
first nor its last character.  A `$` in Python also matches just before one
trailing newline, hence the initial adjustment (unreachable after `strip`
but kept for fidelity). -/
def emailReMatch (s : String) : Bool :=
  let cs := if s.data.getLast? == some '\n' then s.data.dropLast else s.data
  match splitOnChar '@' cs with
  | [loc, dom] =>
    !loc.isEmpty && noWsNoAt loc && noWsNoAt dom && ((dom.drop 1).dropLast.contains '.')
  | _ => false

/-- The `opt_in` field of a /save_email request: Python distinguishes a
string value, a boolean value, and anything else (absent, null, numbers),
which leaves the default `True`. -/
inductive OptInVal where
  | absent
  | str (s : String)
  | boolean (b : Bool)
deriving DecidableEq, Repr

/-- A JSON response of the /save_email route: HTTP status plus either
`{"success": false, "error": msg}` or `{"success": true, "message": msg}`. -/
inductive SaveEmailResp where
  | err (status : Nat) (msg : String)
  | ok (status : Nat) (msg : String)
deriving DecidableEq, Repr

/-- The `save_email` route of src/app.py after request parsing: strip the
email, derive `name` and `opt_in`, validate, generate a token (passed in as
`token`, standing for `secrets.token_urlsafe(16)`), store the pending row,
and send the verification email.  A `False` from `add_pending_email` yields
the 200 "Email already confirmed." response; a raising send yields 500 with
the row already committed; otherwise 200. -/
def save_email (env : SmtpEnv) (emailField nameField : Option String)
    (opt_in_raw : OptInVal) (token now : String) (db : List EmailRecord) :
    SaveEmailResp × List EmailRecord :=
  let email := pyStrip (emailField.getD "")
  let name := let n := pyStrip (nameField.getD ""); if n == "" then none else some n
  let opt_in :=
    match opt_in_raw with
    | .str s => ["1", "true", "yes", "on"].contains (pyLower s)
    | .boolean b => b
    | .absent => true
  if email == "" then (.err 400 "Email is required.", db)
  else if !emailReMatch email then (.err 400 "Invalid email format.", db)
  else
    let res := add_pending_email email name token opt_in now db
    if res.1 == false then (.ok 200 "Email already confirmed.", res.2)
    else
      let bve := build_verification_email env.APP_BASE_URL env.SENDER_NAME email token
      match send_email_via_smtp env email bve.1 bve.2.1 (some email) (some bve.2.2) with
      | .raised _ => (.err 500 "Failed to send verification email.", res.2)
      | _ => (.ok 200 "Verification email sent. Check your inbox.", res.2)

/-- The friendly confirmation page rendered by the `confirm_email` route of
src/app.py for a confirmed address. -/
def confirmation_page_html (email : String) : String :=
  "\n    <html>\n      <head><title>Email confirmed</title></head>\n      <body style=\"font-family: sans-serif; max-width: 640px; margin: 40px auto;\">\n        <h2>Thanks — your email is confirmed</h2>\n        <p>The address <strong>" ++ email ++
  "</strong> has been confirmed and saved. You can now use this contact when sending requests.</p>\n        <p><a href=\"/\">Return to the app</a></p>\n      </body>\n    </html>\n    "

/-- The `confirm_email` GET route of src/app.py: `request.args.get("token",
"")` stripped; blank gives 400; an unknown token gives 400; otherwise the
200 confirmation page for the returned row. -/
def confirm_email_route (tokenArg : Option String) (now : String)
    (db : List EmailRecord) : (Nat × String) × List EmailRecord :=
  let token := pyStrip (tokenArg.getD "")
  if token == "" then ((400, "<h3>Invalid verification link</h3>"), db)
  else
    let res := confirm_email token now db
    match res.1 with
    | none => ((400, "<h3>Invalid or expired token</h3>"), res.2)
    | some row => ((200, confirmation_page_html row.email), res.2)

/-- The city used by the `send_requests` route of src/app.py:
`data.get("city") or extract_city_from_address(address)`. -/
def effective_city (cityField : Option String) (address : String) : Option String :=
  if truthy cityField then cityField else extract_city_from_address (some address)

/-- One per-recipient element of the `results` object of /api/send-requests:
`{"skipped": true}`, `{"error": msg}`, or the send result. -/
inductive RecipientResult where
  | skipped
  | errorMsg (msg : String)
  | attempted (o : SendOutcome)
deriving DecidableEq, Repr

/-- The per-recipient dispatch portion of the `send_requests` route of
src/app.py, after validation and template rendering (the rendered bodies are
passed in, template rendering being an external collaborator): resolve the
recipients, then for each enabled recipient report "no recipient configured"
for a falsy address and otherwise attempt the send, capturing a raising send
as an error message. -/
def send_requests_results (env : SmtpEnv) (envP envZ : Option String) (address : String)
    (cityField countyField : Option String) (send_to_pva send_to_zoning : Bool)
    (user_email : Option String) (pva_body zoning_body : String) :
    RecipientResult × RecipientResult :=
  let city := effective_city cityField address
  let county := countyField
  let emails := get_emails_for_location envP envZ city county
  let pva_email := emails.pva
  let zoning_email := emails.zoning
  let reply_to : Option String := if truthy user_email then user_email else none
  let pvaRes :=
    if send_to_pva then
      if !truthy pva_email then RecipientResult.errorMsg "No PVA recipient configured"
      else
        match send_email_via_smtp env (pva_email.getD "") ("PVA request for " ++ address)
            pva_body reply_to none with
        | .raised m => RecipientResult.errorMsg m
        | o => RecipientResult.attempted o
    else RecipientResult.skipped
  let zoningRes :=
    if send_to_zoning then
      if !truthy zoning_email then RecipientResult.errorMsg "No Zoning recipient configured"
      else
        match send_email_via_smtp env (zoning_email.getD "") ("Zoning request for " ++ address)
            zoning_body reply_to none with
        | .raised m => RecipientResult.errorMsg m
        | o => RecipientResult.attempted o
    else RecipientResult.skipped
  (pvaRes, zoningRes)

/-! ## Helper lemmas -/

lemma pyMerge_defaults_isSome (envP envZ : Option String) (v : Entry) :
    ((pyMerge (DEFAULT_EMAILS envP envZ) v).pva).isSome = true ∧
    ((pyMerge (DEFAULT_EMAILS envP envZ) v).zoning).isSome = true := by
  cases hp : v.pva <;> cases hz : v.zoning <;> simp [pyMerge, DEFAULT_EMAILS, hp, hz]

lemma grant_core_eq (envP envZ cn : Option String) :
    get_emails_core envP envZ cn (some "grant") =
      pyMerge (DEFAULT_EMAILS envP envZ) (applyGrantOverride cn grantBase) := by
  cases cn with
  | none => rfl
  | some c =>
    by_cases hc : c = ""
    · subst hc; rfl
    · have ht : truthy (some c) = true := by simp [truthy, hc]
      cases hl : GRANT_CITY_ZONING_MAP.lookup c with
      | none =>
        simp only [get_emails_core, applyGrantOverride, grant_city_override, ht, hl, if_neg hc,
          if_true]
        rfl
      | some z =>
        simp only [get_emails_core, applyGrantOverride, grant_city_override, ht, hl,
          if_neg hc, if_true]
        by_cases hz : z = ""
        · subst hz; rfl
        · have hzb : (z != "") = true := by simp [hz]
          simp only [hzb, if_true, if_neg hz]
          rfl

lemma county_hit_eq (envP envZ : Option String) (cn : Option String) (k : String) (v : Entry)
    (hmem : (k, v) ∈ COUNTY_EMAIL_MAP) (hk : k ≠ "grant") :
    get_emails_core envP envZ cn (some k) = pyMerge (DEFAULT_EMAILS envP envZ) v := by
  simp only [COUNTY_EMAIL_MAP, List.mem_cons, List.not_mem_nil, or_false,
    Prod.mk.injEq] at hmem
  rcases hmem with ⟨h1, h2⟩ | ⟨h1, h2⟩ | ⟨h1, h2⟩ | ⟨h1, h2⟩ | ⟨h1, h2⟩ | ⟨h1, h2⟩ |
    ⟨h1, h2⟩ | ⟨h1, h2⟩ | ⟨h1, h2⟩ | ⟨h1, h2⟩ <;>
    first
      | (exact absurd h1 (fun h => hk (h ▸ rfl)))
      | (subst h1; subst h2; rfl)

lemma city_hit_eq (envP envZ : Option String) (k : String) (v : Entry)
    (hmem : (k, v) ∈ CITY_EMAIL_MAP) :
    get_emails_core envP envZ (normalize_key (some k)) none =
      pyMerge (DEFAULT_EMAILS envP envZ) v := by
  simp only [CITY_EMAIL_MAP, List.mem_cons, List.not_mem_nil, or_false,
    Prod.mk.injEq] at hmem
  rcases hmem with ⟨h1, h2⟩ | ⟨h1, h2⟩ <;> (subst h1; subst h2; rfl)

lemma add_pending_already_confirmed (email : String) (name : Option String)
    (token : String) (oi : Bool) (now : String) (db : List EmailRecord) (r : EmailRecord)
    (hfind : db.find? (fun x => x.email == email) = some r) (hconf : r.confirmed = true) :
    add_pending_email email name token oi now db = (false, db) := by
  unfold add_pending_email
  rw [hfind]
  simp [hconf]

lemma add_pending_update (email : String) (name : Option String)
    (token : String) (oi : Bool) (now : String) (db : List EmailRecord) (r : EmailRecord)
    (hfind : db.find? (fun x => x.email == email) = some r) (hconf : r.confirmed = false) :
    add_pending_email email name token oi now db =
      (true, db.map (fun x =>
        if x.email == email then
          { x with token := some token, name := name, opt_in := oi, created_at := some now }
        else x)) := by
  unfold add_pending_email
  rw [hfind]
  simp [hconf]

lemma confirm_notfound (t now : String) (db : List EmailRecord)
    (h : db.find? (fun r => r.token == some t) = none) :
    confirm_email t now db = (none, db) := by
  unfold confirm_email
  rw [h]

lemma confirm_already (t now : String) (db : List EmailRecord) (r : EmailRecord)
    (h : db.find? (fun x => x.token == some t) = some r) (hc : r.confirmed = true) :
    confirm_email t now db =
      (some { id := r.id, name := r.name, email := r.email, confirmed := true }, db) := by
  unfold confirm_email
  rw [h]
  simp [hc]

lemma confirm_pending (t now : String) (db : List EmailRecord) (r : EmailRecord)
    (h : db.find? (fun x => x.token == some t) = some r) (hc : r.confirmed = false) :
    confirm_email t now db =
      (some { id := r.id, name := r.name, email := r.email, confirmed := true },
       db.map (fun x =>
         if x.id == r.id then { x with confirmed := true, confirmed_at := some now } else x)) := by
  unfold confirm_email
  rw [h]
  simp [hc]

lemma find?_email_map (db : List EmailRecord) (f : EmailRecord → EmailRecord) (e : String)
    (hf : ∀ x, (f x).email = x.email) :
    (db.map f).find? (fun x => x.email == e) = (db.find? (fun x => x.email == e)).map f := by
  induction db with
  | nil => rfl
  | cons a t ih =>
    simp only [List.map_cons, List.find?]
    rw [hf a]
    cases h : (a.email == e) with
    | true => rfl
    | false => exact ih

lemma emailRe_nonempty {s : String} (h : emailReMatch s = true) : (s == "") = false := by
  cases hs : (s == "") with
  | false => rfl
  | true =>
    have hse : s = "" := by simpa using hs
    rw [hse] at h
    exact absurd h (by decide)

/-! ## Claim theorems -/

/-- C1 (counterexample): the claim as stated is false.  "grant" is a key of
the county table, yet `get_emails_for_location("Crittenden", "Grant")` does
not return the grant entry merged over the defaults: the per-city override
replaces the zoning field with the Crittenden zoning address, so the result
depends on the city argument. -/
theorem county_claim_counterexample :
    ("grant", grantBase) ∈ COUNTY_EMAIL_MAP ∧
    normalize_key (some "Grant") = some "grant" ∧
    get_emails_for_location none none (some "Crittenden") (some "Grant") ≠
      pyMerge (DEFAULT_EMAILS none none) grantBase ∧
    (get_emails_for_location none none (some "Crittenden") (some "Grant")).zoning =
      some "dmartin@cityofcrittendenky.gov" := by
  refine ⟨by decide, by decide, ?_, by decide⟩
  intro h
  have : (pyMerge (DEFAULT_EMAILS none none) grantBase).zoning =
      some "dmartin@cityofcrittendenky.gov" := by rw [← h]; decide
  exact absurd this (by decide)

/-- C1 (amended): for every county whose normalized name is a key of the
county table, `get_emails_for_location(city, county)` returns that county
entry merged over the global defaults (preserving explicit empty strings)
for every city argument, except that for the "grant" key the zoning field is
first replaced by the per-city Grant override when the normalized city has a
non-empty entry in the override table; the city table is never consulted
when a county entry matches. -/
theorem county_match_authoritative (envP envZ city county : Option String)
    (k : String) (v : Entry)
    (hmem : (k, v) ∈ COUNTY_EMAIL_MAP) (hc : normalize_key county = some k) :
    get_emails_for_location envP envZ city county =
      pyMerge (DEFAULT_EMAILS envP envZ)
        (if k = "grant" then applyGrantOverride (normalize_key city) v else v) := by
  unfold get_emails_for_location
  rw [hc]
  by_cases hk : k = "grant"
  · subst hk
    have hv : v = grantBase := by
      simp only [COUNTY_EMAIL_MAP, List.mem_cons, List.not_mem_nil, or_false,
        Prod.mk.injEq] at hmem
      rcases hmem with ⟨h1, h2⟩ | ⟨h1, h2⟩ | ⟨h1, h2⟩ | ⟨h1, h2⟩ | ⟨h1, h2⟩ | ⟨h1, h2⟩ |
        ⟨h1, h2⟩ | ⟨h1, h2⟩ | ⟨h1, h2⟩ | ⟨h1, h2⟩ <;>
        first
          | (exact absurd h1.symm (by decide))
          | (rw [h2]; rfl)
    rw [hv, if_pos rfl]
    exact grant_core_eq envP envZ (normalize_key city)
  · rw [if_neg hk]
    exact county_hit_eq envP envZ (normalize_key city) k v hmem hk

/-- C1 witness: the amended theorem applied to the Anderson county entry. -/
theorem county_match_authoritative_witness :
    ("anderson",
        ({ pva := some "BStivers41@gmail.com",
           zoning := some "rachelle.lile@roadrunner.com" } : Entry)) ∈ COUNTY_EMAIL_MAP ∧
    normalize_key (some " Anderson ") = some "anderson" ∧
    get_emails_for_location none none (some "Springfield") (some " Anderson ") =
      pyMerge (DEFAULT_EMAILS none none)
        (if "anderson" = "grant" then
          applyGrantOverride (normalize_key (some "Springfield"))
            { pva := some "BStivers41@gmail.com", zoning := some "rachelle.lile@roadrunner.com" }
        else
          { pva := some "BStivers41@gmail.com", zoning := some "rachelle.lile@roadrunner.com" }) :=
  ⟨by decide, by decide,
    county_match_authoritative none none (some "Springfield") (some " Anderson ")
      "anderson" _ (by decide) (by decide)⟩

/-- C5: when the county normalizes to "grant", the resolver returns the
grant base entry with its zoning replaced by the per-city override whenever
the normalized city has a non-empty override entry (an empty-string override
row counts as absent), merged over the defaults; with no applicable override
the zoning falls back to the default, the grant entry having no zoning of
its own. -/
theorem grant_zoning_override (envP envZ city county : Option String)
    (hc : normalize_key county = some "grant") :
    COUNTY_EMAIL_MAP.lookup "grant" = some grantBase ∧
    get_emails_for_location envP envZ city county =
      pyMerge (DEFAULT_EMAILS envP envZ) (applyGrantOverride (normalize_key city) grantBase) ∧
    (∀ z, grant_city_override (normalize_key city) = some z →
      (get_emails_for_location envP envZ city county).zoning = some z) ∧
    (grant_city_override (normalize_key city) = none →
      (get_emails_for_location envP envZ city county).zoning =
        some (envZ.getD "zoning@example.com")) := by
  have hmain : get_emails_for_location envP envZ city county =
      pyMerge (DEFAULT_EMAILS envP envZ) (applyGrantOverride (normalize_key city) grantBase) := by
    unfold get_emails_for_location
    rw [hc]
    exact grant_core_eq envP envZ (normalize_key city)
  refine ⟨rfl, hmain, ?_, ?_⟩
  · intro z hz
    rw [hmain]
    simp [applyGrantOverride, hz, pyMerge]
  · intro hz
    rw [hmain]
    simp [applyGrantOverride, hz, pyMerge, grantBase, DEFAULT_EMAILS]

/-- C5 witness: the theorem applied to Grant county with the Crittenden
override and, separately checkable, a non-empty override value. -/
theorem grant_zoning_override_witness :
    normalize_key (some "Grant") = some "grant" ∧
    (get_emails_for_location none none (some "Crittenden") (some "Grant") =
      pyMerge (DEFAULT_EMAILS none none)
        (applyGrantOverride (normalize_key (some "Crittenden")) grantBase)) :=
  ⟨by decide, (grant_zoning_override none none (some "Crittenden") (some "Grant")
    (by decide)).2.1⟩

/-- C3: in the county and city lookup branches an explicit empty-string
field of the matched entry survives to the result while an absent field is
backfilled from the global defaults (the Grant branch backfills its absent
zoning likewise when no per-city override applies); and the send-requests
dispatcher reports "no recipient configured" for an empty resolved
recipient instead of attempting a send. -/
theorem empty_string_preserved_absent_backfilled :
    (∀ envP envZ city county k v, (k, v) ∈ COUNTY_EMAIL_MAP → k ≠ "grant" →
      normalize_key county = some k →
      ((v.pva = some "" → (get_emails_for_location envP envZ city county).pva = some "") ∧
       (v.zoning = some "" → (get_emails_for_location envP envZ city county).zoning = some "") ∧
       (v.pva = none → (get_emails_for_location envP envZ city county).pva =
          some (envP.getD "pva@example.com")) ∧
       (v.zoning = none → (get_emails_for_location envP envZ city county).zoning =
          some (envZ.getD "zoning@example.com")))) ∧
    (∀ envP envZ city county, normalize_key county = some "grant" →
      grant_city_override (normalize_key city) = none →
      (get_emails_for_location envP envZ city county).zoning =
        some (envZ.getD "zoning@example.com")) ∧
    (∀ envP envZ city k v, (k, v) ∈ CITY_EMAIL_MAP →
      normalize_key city = normalize_key (some k) →
      ((v.pva = some "" → (get_emails_for_location envP envZ city none).pva = some "") ∧
       (v.zoning = some "" → (get_emails_for_location envP envZ city none).zoning = some "") ∧
       (v.pva = none → (get_emails_for_location envP envZ city none).pva =
          some (envP.getD "pva@example.com")) ∧
       (v.zoning = none → (get_emails_for_location envP envZ city none).zoning =
          some (envZ.getD "zoning@example.com")))) ∧
    (∀ env envP envZ address cityF countyF flagZ uem pb zb,
      (get_emails_for_location envP envZ (effective_city cityF address) countyF).pva =
        some "" →
      (send_requests_results env envP envZ address cityF countyF true flagZ uem pb zb).1 =
        RecipientResult.errorMsg "No PVA recipient configured") ∧
    (∀ env envP envZ address cityF countyF flagP uem pb zb,
      (get_emails_for_location envP envZ (effective_city cityF address) countyF).zoning =
        some "" →
      (send_requests_results env envP envZ address cityF countyF flagP true uem pb zb).2 =
        RecipientResult.errorMsg "No Zoning recipient configured") := by
  refine ⟨?_, ?_, ?_, ?_, ?_⟩
  · intro envP envZ city county k v hmem hk hc
    have he : get_emails_for_location envP envZ city county =
        pyMerge (DEFAULT_EMAILS envP envZ) v := by
      unfold get_emails_for_location
      rw [hc]
      exact county_hit_eq envP envZ (normalize_key city) k v hmem hk
    rw [he]
    refine ⟨fun h => ?_, fun h => ?_, fun h => ?_, fun h => ?_⟩ <;>
      simp [pyMerge, DEFAULT_EMAILS, h]
  · intro envP envZ city county hc hov
    have he : get_emails_for_location envP envZ city county =
        pyMerge (DEFAULT_EMAILS envP envZ) (applyGrantOverride (normalize_key city) grantBase) := by
      unfold get_emails_for_location
      rw [hc]
      exact grant_core_eq envP envZ (normalize_key city)
    rw [he]
    simp [applyGrantOverride, hov, pyMerge, grantBase, DEFAULT_EMAILS]
  · intro envP envZ city k v hmem hcity
    have he : get_emails_for_location envP envZ city none =
        pyMerge (DEFAULT_EMAILS envP envZ) v := by
      unfold get_emails_for_location
      rw [hcity]
      exact city_hit_eq envP envZ k v hmem
    rw [he]
    refine ⟨fun h => ?_, fun h => ?_, fun h => ?_, fun h => ?_⟩ <;>
      simp [pyMerge, DEFAULT_EMAILS, h]
  · intro env envP envZ address cityF countyF flagZ uem pb zb h
    simp only [send_requests_results]
    rw [h]
    simp [truthy]
  · intro env envP envZ address cityF countyF flagP uem pb zb h
    simp only [send_requests_results]
    rw [h]
    simp [truthy]

/-- C3 witness: the Owen county entry stores zoning as the empty string and
the resolver returns it as empty; the dispatcher then reports the missing
Zoning recipient for that county. -/
theorem empty_string_preserved_witness :
    ((get_emails_for_location none none (some "Springfield") (some "Owen")).zoning =
      some "") ∧
    ((send_requests_results {} none none "1 Elm St" none (some "Owen") true true none
        "pb" "zb").2 = RecipientResult.errorMsg "No Zoning recipient configured") :=
  ⟨(empty_string_preserved_absent_backfilled.1 none none (some "Springfield") (some "Owen")
      "owen" { pva := some "blake.robertson@ky.gov", zoning := some "" }
      (by decide) (by decide) (by decide)).2.1 (by decide),
   empty_string_preserved_absent_backfilled.2.2.2.2 {} none none "1 Elm St" none
      (some "Owen") true none "pb" "zb" (by decide)⟩

/-- C10: for every pair of optional city and county arguments the resolver
returns an entry carrying both the pva and the zoning key, since every
branch either merges the matched entry over the default pair or returns the
default pair itself. -/
theorem resolver_always_has_both_keys (envP envZ city county : Option String) :
    ((get_emails_for_location envP envZ city county).pva).isSome = true ∧
    ((get_emails_for_location envP envZ city county).zoning).isSome = true := by
  unfold get_emails_for_location get_emails_core
  split
  · exact pyMerge_defaults_isSome envP envZ _
  · have hcity : ∀ o : Option (String × Entry),
        ((match o with
          | some kv => pyMerge (DEFAULT_EMAILS envP envZ) kv.2
          | none => DEFAULT_EMAILS envP envZ) : Entry).pva.isSome = true ∧
        ((match o with
          | some kv => pyMerge (DEFAULT_EMAILS envP envZ) kv.2
          | none => DEFAULT_EMAILS envP envZ) : Entry).zoning.isSome = true := by
      intro o
      cases o with
      | some kv => exact pyMerge_defaults_isSome envP envZ _
      | none => simp [DEFAULT_EMAILS]
    by_cases hck : truthy (normalize_key county) = true
    · simp only [hck, if_true]
      cases hf : List.find? (fun kv => normalize_key (some kv.1) == normalize_key county)
          COUNTY_EMAIL_MAP with
      | some kv => exact pyMerge_defaults_isSome envP envZ _
      | none =>
        by_cases hcy : truthy (normalize_key city) = true
        · simp only [hcy, if_true]
          exact hcity _
        · rw [if_neg hcy]
          exact hcity none
    · rw [if_neg hck]
      by_cases hcy : truthy (normalize_key city) = true
      · simp only [hcy, if_true]
        exact hcity _
      · rw [if_neg hcy]
        exact hcity none

/-- C10 witness: the theorem applied to truthy-but-unmatched, empty-string
and absent arguments. -/
theorem resolver_always_has_both_keys_witness :
    (((get_emails_for_location none none (some "Nowhere") (some "   ")).pva).isSome = true ∧
     ((get_emails_for_location none none (some "Nowhere") (some "   ")).zoning).isSome = true) ∧
    (((get_emails_for_location none none none (some "")).pva).isSome = true ∧
     ((get_emails_for_location none none none (some "")).zoning).isSome = true) :=
  ⟨resolver_always_has_both_keys none none (some "Nowhere") (some "   "),
   resolver_always_has_both_keys none none none (some "")⟩

/-- C8: `extract_city_from_address` computes exactly the spec-side function
(split on commas, trim, discard empties, second-to-last when at least two
components remain, absent otherwise), totality in Lean standing in for
"never raises"; including the two worked examples of the spec. -/
theorem extract_city_matches_spec :
    (∀ s : String, extract_city_from_address (some s) = extractCitySpec s) ∧
    extract_city_from_address none = none ∧
    extract_city_from_address (some "123 Main St, Springfield, IL 62701") =
      some "Springfield" ∧
    extract_city_from_address (some "NoCommasHere") = none := by
  refine ⟨?_, rfl, by decide, by decide⟩
  intro s
  by_cases hs : s = ""
  · subst hs; decide
  · simp only [extract_city_from_address, extractCitySpec]
    rw [show (s == "") = false by simp [hs]]
    simp

/-- C8 witness: the code-to-spec equation applied at a concrete address. -/
theorem extract_city_matches_spec_witness :
    extract_city_from_address (some " ,  Lexington , KY ") =
      extractCitySpec " ,  Lexington , KY " :=
  extract_city_matches_spec.1 " ,  Lexington , KY "

/-- C2 (counterexample): the claim as stated is false.  Confirming the same
token twice returns the very same row value both times: the already
confirmed outcome is not distinct from the success outcome (only `None` for
an unknown token is distinguishable). -/
theorem confirm_already_not_distinct_counterexample :
    (confirm_email "tok1" "T1"
        [{ id := 1, email := "user@example.com", token := some "tok1" }]).1 ≠ none ∧
    (confirm_email "tok1" "T2"
        (confirm_email "tok1" "T1"
          [{ id := 1, email := "user@example.com", token := some "tok1" }]).2).1 =
      (confirm_email "tok1" "T1"
        [{ id := 1, email := "user@example.com", token := some "tok1" }]).1 := by
  decide

/-- C2 (amended): `confirm_email` returns `None` (NotFound) when no record
holds the token and leaves the store unchanged; for a record already
confirmed it returns the row dict with `confirmed = true` without mutating
any stored state — a value identical in content to the success result
rather than distinct from it; for a pending record it sets
`confirmed = true`, stamps `confirmed_at`, and returns the row dict carrying
the associated email address. -/
theorem confirm_email_lifecycle :
    (∀ t now db, db.find? (fun r => r.token == some t) = none →
      confirm_email t now db = (none, db)) ∧
    (∀ t now db r, db.find? (fun x => x.token == some t) = some r → r.confirmed = true →
      confirm_email t now db =
        (some { id := r.id, name := r.name, email := r.email, confirmed := true }, db)) ∧
    (∀ t now db r, db.find? (fun x => x.token == some t) = some r → r.confirmed = false →
      confirm_email t now db =
        (some { id := r.id, name := r.name, email := r.email, confirmed := true },
         db.map (fun x =>
           if x.id == r.id then { x with confirmed := true, confirmed_at := some now }
           else x))) :=
  ⟨confirm_notfound, confirm_already, confirm_pending⟩

/-- C2 witness: the three branches of the lifecycle theorem exercised on a
concrete store. -/
theorem confirm_email_lifecycle_witness :
    (confirm_email "nope" "T1"
      [{ id := 1, email := "user@example.com", token := some "tok1" }] =
      (none, [{ id := 1, email := "user@example.com", token := some "tok1" }])) ∧
    (confirm_email "tok2" "T1"
      [{ id := 2, email := "done@example.com", token := some "tok2", confirmed := true }] =
      (some { id := 2, name := none, email := "done@example.com", confirmed := true },
       [{ id := 2, email := "done@example.com", token := some "tok2", confirmed := true }])) ∧
    (confirm_email "tok1" "T1"
      [{ id := 1, email := "user@example.com", token := some "tok1" }] =
      (some { id := 1, name := none, email := "user@example.com", confirmed := true },
       [{ id := 1, email := "user@example.com", token := some "tok1" }].map (fun x =>
         if x.id == 1 then { x with confirmed := true, confirmed_at := some "T1" } else x))) :=
  ⟨confirm_email_lifecycle.1 "nope" "T1" _ (by decide),
   confirm_email_lifecycle.2.1 "tok2" "T1" _
     { id := 2, email := "done@example.com", token := some "tok2", confirmed := true }
     (by decide) (by decide),
   confirm_email_lifecycle.2.2 "tok1" "T1" _
     { id := 1, email := "user@example.com", token := some "tok1" }
     (by decide) (by decide)⟩

/-- C4: resubmitting an email that has a pending (unconfirmed) record
updates that same record in place with the fresh token — the store keeps its
length, so no second record appears — and afterwards the previously issued
token is held by no record, so confirming it yields NotFound and changes
nothing. -/
theorem resubmit_overwrites_token (db : List EmailRecord) (r : EmailRecord)
    (e t0 t1 now now2 : String) (name : Option String) (oi : Bool)
    (hfind : db.find? (fun x => x.email == e) = some r)
    (hpend : r.confirmed = false)
    (htok : r.token = some t0)
    (hne : t0 ≠ t1)
    (huniq : ∀ x ∈ db, x.token = some t0 → x.email = e) :
    (add_pending_email e name t1 oi now db).1 = true ∧
    (add_pending_email e name t1 oi now db).2.length = db.length ∧
    (add_pending_email e name t1 oi now db).2.find? (fun x => x.email == e) =
      some { r with token := some t1, name := name, opt_in := oi, created_at := some now } ∧
    confirm_email t0 now2 (add_pending_email e name t1 oi now db).2 =
      (none, (add_pending_email e name t1 oi now db).2) := by
  have hadd := add_pending_update e name t1 oi now db r hfind hpend
  rw [hadd]
  have hfmap : (db.map (fun x =>
      if x.email == e then
        { x with token := some t1, name := name, opt_in := oi, created_at := some now }
      else x)).find? (fun x => x.email == e) =
      some { r with token := some t1, name := name, opt_in := oi, created_at := some now } := by
    rw [find?_email_map db _ e (by
      intro x
      by_cases hx : (x.email == e) = true <;> simp [hx]), hfind]
    have hre := List.find?_some hfind
    simp only [] at hre
    simp [hre]
    intro hcontra
    exact absurd (eq_of_beq hre) hcontra
  refine ⟨rfl, by simp, hfmap, ?_⟩
  apply confirm_notfound
  rw [List.find?_eq_none]
  intro x hx
  rcases List.mem_map.mp hx with ⟨y, hy, hxy⟩
  subst hxy
  by_cases hye : (y.email == e) = true
  · simp only [hye, if_true]
    simp only [Option.some.injEq, beq_iff_eq]
    intro hcontra
    exact hne (by simpa using hcontra.symm)
  · simp only [hye, if_false]
    simp only [beq_iff_eq]
    intro hcontra
    have : y.email = e := huniq y hy hcontra
    exact absurd (by simp [this] : (y.email == e) = true) (by simp [hye])

/-- C4 witness: the theorem applied to a one-record pending store; the old
token stops being confirmable once the new one is stored. -/
theorem resubmit_overwrites_token_witness :
    ((add_pending_email "user@example.com" none "tokNew" true "T3"
        [{ id := 1, email := "user@example.com", token := some "tokOld" }]).1 = true ∧
     (add_pending_email "user@example.com" none "tokNew" true "T3"
        [{ id := 1, email := "user@example.com", token := some "tokOld" }]).2.length = 1 ∧
     (add_pending_email "user@example.com" none "tokNew" true "T3"
        [{ id := 1, email := "user@example.com", token := some "tokOld" }]).2.find?
          (fun x => x.email == "user@example.com") =
       some { id := 1, email := "user@example.com", token := some "tokNew", name := none,
              opt_in := true, created_at := some "T3" } ∧
     confirm_email "tokOld" "T9"
        (add_pending_email "user@example.com" none "tokNew" true "T3"
          [{ id := 1, email := "user@example.com", token := some "tokOld" }]).2 =
       (none, (add_pending_email "user@example.com" none "tokNew" true "T3"
          [{ id := 1, email := "user@example.com", token := some "tokOld" }]).2)) :=
  resubmit_overwrites_token
    [{ id := 1, email := "user@example.com", token := some "tokOld" }]
    { id := 1, email := "user@example.com", token := some "tokOld" }
    "user@example.com" "tokOld" "tokNew" "T3" "T9" none true
    (by decide) (by decide) (by decide) (by decide) (by decide)

/-- C6 (counterexample): the claim as stated is false.  Matching is by the
exact stored string, not the normalized (case-folded) email: with a
confirmed record for "a@b.com", submitting "A@B.com" — whose normalization
equals that of the stored address — succeeds and inserts a second pending
record instead of failing with AlreadyConfirmed and leaving the store
unchanged. -/
theorem submit_normalized_match_counterexample :
    normalize_key (some "A@B.com") = normalize_key (some "a@b.com") ∧
    (add_pending_email "A@B.com" none "tok2" true "T1"
        [{ id := 1, email := "a@b.com", token := some "tok1", confirmed := true }]).1 =
      true ∧
    (add_pending_email "A@B.com" none "tok2" true "T1"
        [{ id := 1, email := "a@b.com", token := some "tok1", confirmed := true }]).2 ≠
      [{ id := 1, email := "a@b.com", token := some "tok1", confirmed := true }] ∧
    (add_pending_email "A@B.com" none "tok2" true "T1"
        [{ id := 1, email := "a@b.com", token := some "tok1", confirmed := true }]).2.length =
      2 := by
  decide

/-- C6 (amended): when a confirmed record exists whose stored email string
is exactly the submitted (stripped) email, `add_pending_email` returns
`False` (the AlreadyConfirmed signal) and leaves the store byte-for-byte
unchanged: no token is written and the confirmed record is not overwritten.
Matching is case-sensitive on the exact string, not on the normalized
address. -/
theorem submit_confirmed_rejected (db : List EmailRecord) (r : EmailRecord)
    (e t now : String) (name : Option String) (oi : Bool)
    (hfind : db.find? (fun x => x.email == e) = some r)
    (hconf : r.confirmed = true) :
    add_pending_email e name t oi now db = (false, db) :=
  add_pending_already_confirmed e name t oi now db r hfind hconf

/-- C6 witness: the amended theorem applied to a store holding one confirmed
record for the submitted address. -/
theorem submit_confirmed_rejected_witness :
    add_pending_email "done@example.com" none "tok9" true "T4"
      [{ id := 2, email := "done@example.com", token := some "tok2", confirmed := true }] =
      (false,
       [{ id := 2, email := "done@example.com", token := some "tok2", confirmed := true }]) :=
  submit_confirmed_rejected _
    { id := 2, email := "done@example.com", token := some "tok2", confirmed := true }
    "done@example.com" "tok9" "T4" none true (by decide) (by decide)

/-- C7 (counterexample): the claim as stated is false.  POST /save_email
for an already confirmed address responds 200 with `success: true` and the
message "Email already confirmed.", not 400; and GET /confirm_email with an
already-used token responds 200 with the confirmation page, not 400. -/
theorem route_status_counterexample :
    (save_email {} (some "done@example.com") none .absent "tok9" "T4"
        [{ id := 2, email := "done@example.com", token := some "tok2",
           confirmed := true }]).1 =
      SaveEmailResp.ok 200 "Email already confirmed." ∧
    (confirm_email_route (some "tok2") "T5"
        [{ id := 2, email := "done@example.com", token := some "tok2",
           confirmed := true }]).1.1 = 200 ∧
    (confirm_email_route (some "tok2") "T5"
        [{ id := 2, email := "done@example.com", token := some "tok2",
           confirmed := true }]).1.1 ≠ 400 := by
  decide

/-- C7 (amended): POST /save_email answers 200 with `success: true` and the
message "Email already confirmed." (leaving the store unchanged) when the
submitted email belongs to a confirmed record; GET /confirm_email answers
400 when the token is missing/blank or unknown, and 200 with the
confirmation page both on a fresh confirmation (writing the confirmed flag)
and on an already-used token (store untouched). -/
theorem route_statuses :
    (∀ env e nameF oiv tok now db r,
      emailReMatch (pyStrip (e.getD "")) = true →
      db.find? (fun x => x.email == pyStrip (e.getD "")) = some r →
      r.confirmed = true →
      save_email env e nameF oiv tok now db =
        (.ok 200 "Email already confirmed.", db)) ∧
    (∀ tokArg now db, pyStrip (tokArg.getD "") = "" →
      confirm_email_route tokArg now db =
        ((400, "<h3>Invalid verification link</h3>"), db)) ∧
    (∀ tokArg now db t, pyStrip (tokArg.getD "") = t → t ≠ "" →
      db.find? (fun x => x.token == some t) = none →
      confirm_email_route tokArg now db =
        ((400, "<h3>Invalid or expired token</h3>"), db)) ∧
    (∀ tokArg now db t r, pyStrip (tokArg.getD "") = t → t ≠ "" →
      db.find? (fun x => x.token == some t) = some r → r.confirmed = false →
      confirm_email_route tokArg now db =
        ((200, confirmation_page_html r.email),
         db.map (fun x =>
           if x.id == r.id then { x with confirmed := true, confirmed_at := some now }
           else x))) ∧
    (∀ tokArg now db t r, pyStrip (tokArg.getD "") = t → t ≠ "" →
      db.find? (fun x => x.token == some t) = some r → r.confirmed = true →
      confirm_email_route tokArg now db = ((200, confirmation_page_html r.email), db)) := by
  refine ⟨?_, ?_, ?_, ?_, ?_⟩
  · intro env e nameF oiv tok now db r hmatch hfind hconf
    simp only [save_email]
    rw [emailRe_nonempty hmatch, hmatch]
    rw [add_pending_already_confirmed _ _ _ _ _ _ _ hfind hconf]
    simp
  · intro tokArg now db ht
    simp only [confirm_email_route]
    rw [ht]
    simp
  · intro tokArg now db t ht hne hfind
    simp only [confirm_email_route]
    rw [ht, show (t == "") = false by simp [hne]]
    rw [confirm_notfound t now db hfind]
    simp
  · intro tokArg now db t r ht hne hfind hconf
    simp only [confirm_email_route]
    rw [ht, show (t == "") = false by simp [hne]]
    rw [confirm_pending t now db r hfind hconf]
    simp
  · intro tokArg now db t r ht hne hfind hconf
    simp only [confirm_email_route]
    rw [ht, show (t == "") = false by simp [hne]]
    rw [confirm_already t now db r hfind hconf]
    simp

/-- C7 witness: the five amended route behaviors on concrete stores. -/
theorem route_statuses_witness :
    (save_email {} (some " done@example.com ") none .absent "tok9" "T4"
        [{ id := 2, email := "done@example.com", token := some "tok2",
           confirmed := true }] =
      (.ok 200 "Email already confirmed.",
       [{ id := 2, email := "done@example.com", token := some "tok2",
          confirmed := true }])) ∧
    (confirm_email_route (some "   ") "T5" [] =
      ((400, "<h3>Invalid verification link</h3>"), [])) ∧
    (confirm_email_route (some "zz") "T5" [] =
      ((400, "<h3>Invalid or expired token</h3>"), [])) ∧
    (confirm_email_route (some "tok1") "T5"
        [{ id := 1, email := "user@example.com", token := some "tok1" }] =
      ((200, confirmation_page_html "user@example.com"),
       [{ id := 1, email := "user@example.com", token := some "tok1" }].map (fun x =>
         if x.id == 1 then { x with confirmed := true, confirmed_at := some "T5" }
         else x))) ∧
    (confirm_email_route (some "tok2") "T5"
        [{ id := 2, email := "done@example.com", token := some "tok2",
           confirmed := true }] =
      ((200, confirmation_page_html "done@example.com"),
       [{ id := 2, email := "done@example.com", token := some "tok2",
          confirmed := true }])) :=
  ⟨route_statuses.1 {} (some " done@example.com ") none .absent "tok9" "T4" _
     { id := 2, email := "done@example.com", token := some "tok2", confirmed := true }
     (by decide) (by decide) (by decide),
   route_statuses.2.1 (some "   ") "T5" [] (by decide),
   route_statuses.2.2.1 (some "zz") "T5" [] "zz" (by decide) (by decide) (by decide),
   route_statuses.2.2.2.1 (some "tok1") "T5" _ "tok1"
     { id := 1, email := "user@example.com", token := some "tok1" }
     (by decide) (by decide) (by decide) (by decide),
   route_statuses.2.2.2.2 (some "tok2") "T5" _ "tok2"
     { id := 2, email := "done@example.com", token := some "tok2", confirmed := true }
     (by decide) (by decide) (by decide) (by decide)⟩

/-- C9 (counterexample): the claim as stated is false.  With all four of
SMTP_HOST, SMTP_USER, SMTP_PASS and SENDER_EMAIL unset but SMTP_PORT set to
a non-integer string, `send_email_via_smtp` raises ValueError from
`int(os.environ.get("SMTP_PORT", "465"))` before the configuration check,
so no synthetic success is returned. -/
theorem smtp_simulate_counterexample :
    ({ SMTP_PORT := some "abc" } : SmtpEnv).SMTP_HOST = none ∧
    send_email_via_smtp { SMTP_PORT := some "abc" } "user@example.com" "Subject" "Body"
        none none =
      .raised "invalid literal for int() with base 10: \x27abc\x27" ∧
    send_email_via_smtp { SMTP_PORT := some "abc" } "user@example.com" "Subject" "Body"
        none none ≠
      .simulated 250 "Simulated send to user@example.com" [] := by
  decide

/-- C9 (amended): whenever any of SMTP_HOST, SMTP_USER, SMTP_PASS or
SENDER_EMAIL is unset — and SMTP_PORT, if set, parses as an integer — the
mail-send operation performs no network call and returns the synthetic
success result: status_code 250 with the simulated-send body (and a
Reply-To header echoed when a truthy reply_to was supplied), for every
recipient, subject and body. -/
theorem smtp_unset_simulates (env : SmtpEnv) (to_email subject body_text : String)
    (reply_to html_body : Option String) (n : Int)
    (hport : pyIntOfString (env.SMTP_PORT.getD "465") = some n)
    (hunset : env.SMTP_HOST = none ∨ env.SMTP_USER = none ∨ env.SMTP_PASS = none ∨
      env.SENDER_EMAIL = none) :
    send_email_via_smtp env to_email subject body_text reply_to html_body =
      .simulated 250 ("Simulated send to " ++ to_email)
        (match reply_to with
         | some r => if r != "" then [("Reply-To", r)] else []
         | none => []) := by
  simp only [send_email_via_smtp]
  rw [hport]
  have hguard : (!truthy env.SMTP_HOST || !truthy env.SMTP_USER || !truthy env.SMTP_PASS ||
      !truthy env.SENDER_EMAIL) = true := by
    rcases hunset with h | h | h | h <;> simp [h, truthy]
  rw [hguard]
  cases reply_to <;> simp

/-- C9 witness: the fully unset environment simulates the send, both with
and without a Reply-To address. -/
theorem smtp_unset_simulates_witness :
    (send_email_via_smtp {} "user@example.com" "Subject" "Body" none none =
      .simulated 250 "Simulated send to user@example.com" []) ∧
    (send_email_via_smtp {} "user@example.com" "Subject" "Body" (some "r@example.com") none =
      .simulated 250 "Simulated send to user@example.com" [("Reply-To", "r@example.com")]) :=
  ⟨smtp_unset_simulates {} "user@example.com" "Subject" "Body" none none 465
     (by decide) (Or.inl rfl),
   smtp_unset_simulates {} "user@example.com" "Subject" "Body" (some "r@example.com") none 465
     (by decide) (Or.inl rfl)⟩
